import Mathlib

/-!
# Selector Feasibility Validator — shallow embedding

A Lean model of the sequential selector-validation engine of
`ai_test_generator.py` (classes `SelectorValidator` / `StrategyValidator`):

* `create_locator_from_selector` — selector-string resolution and its
  unsupported-syntax rejections;
* `extract_text_expectation` — the three path-query text-expectation patterns;
* `test_single_selector` — the per-item feasibility probe with its
  per-action branches (click / hover / type / verify / navigate);
* `should_attempt_navigation` — the navigation-eligibility gate;
* `calculate_validation_results` — the aggregate report;
* `validate_strategy` — the façade (vacuous pass on an empty selector list).

Browser/DOM state that the Python code queries through the automation engine
is modelled by explicit structures (`ElementState`, `PageEnv`); error-message
strings are modelled by the `ProbeError` classification (each constructor is
documented with the message the source assigns).
-/

namespace SelectorFeasibility

/-- Single-quote character (codepoint 39). -/
def squote : Char := Char.ofNat 39

/-- Double-quote character (codepoint 34). -/
def dquote : Char := Char.ofNat 34

/-- `charsPrefixOf needle hay` — `needle` is a prefix of `hay` (over `Char` lists). -/
def charsPrefixOf : List Char → List Char → Bool
  | [], _ => true
  | _ :: _, [] => false
  | n :: ns, h :: hs => n == h && charsPrefixOf ns hs

/-- `charsContain hay needle` — `needle` occurs contiguously inside `hay`. -/
def charsContain : List Char → List Char → Bool
  | hay, needle =>
    match hay with
    | [] => needle.isEmpty
    | _ :: t => charsPrefixOf needle hay || charsContain t needle

/-- Python's substring test `needle in hay`. -/
def strContains (hay needle : String) : Bool :=
  charsContain hay.toList needle.toList

/-- `charsStartWith hay pre` — `pre` is a prefix of `hay`. -/
def charsStartWith (hay pre : String) : Bool :=
  charsPrefixOf pre.toList hay.toList

/-- Python's `s.lower()` (ASCII case mapping suffices for the strings involved). -/
def strLower (s : String) : String := String.mk (s.toList.map Char.toLower)

/-- Whitespace stripped from both ends of a character list. -/
def trimChars (cs : List Char) : List Char :=
  ((cs.dropWhile Char.isWhitespace).reverse.dropWhile Char.isWhitespace).reverse

/-- Python's `s.strip()` (default whitespace stripping). -/
def strTrim (s : String) : String := String.mk (trimChars s.toList)

/-- Python's `s.lower().strip()` applied to an action string
(source line 121: `selector_info.get('element_action', '').lower().strip()`). -/
def normalizeAction (a : String) : String := strTrim (strLower a)

/-- The `VALID_ACTIONS` set of `_test_single_selector` (source line 117). -/
def validActions : List String := ["click", "hover", "type", "verify", "navigate"]

/-- One proposed interaction to validate: the dict built by
`extract_primary_selectors_from_strategy` (source lines 40-47). -/
structure SelectorInfo where
  selector : String
  element_index : Nat
  element_type : String
  purpose : String
  element_action : String
  reasoning : String
deriving DecidableEq

/-- An element's bounding box (`bounding_box()` result when it is not `None`).
Dimensions are rationals standing in for the engine's real-valued geometry. -/
structure BBox where
  width : ℚ
  height : ℚ
deriving DecidableEq

/-- Observable state of the first matching element, i.e. the answers the
automation engine gives to the probe's queries on `locator.first`.

* `input_value` is `none` when `input_value()` raises (the element has no
  input-value concept), making the code fall back to `text_content()`.
* `writeVal s` is the value the element holds after the probe writes `s`
  (`fill(s)`; `clear()` is the write of `""`).  The element may transform the
  requested value (framework-controlled inputs, input filters, `maxlength`) —
  this is exactly why the source re-reads the value and checks for the probe
  string (source lines 229-239). -/
structure ElementState where
  is_visible : Bool
  is_enabled : Bool
  bounding_box : Option BBox
  is_editable : Bool
  input_value : Option String
  text_content : String
  attr : String → Option String
  cursor : String
  writeVal : String → String

/-- The page as seen by one probe: current URL, the match count of the
resolved locator, and the first matching element. -/
structure PageEnv where
  url : String
  element_count : Nat
  elem : ElementState

/-- The element's readable value before any write: `input_value()` falling
back to `text_content()` on exception (source lines 220-223 and 230-234). -/
def preProbeValue (e : ElementState) : String :=
  e.input_value.getD e.text_content

/-- Classification of the error strings `_test_single_selector` and
`_create_locator_from_selector` assign to `result['error']`. -/
inductive ProbeError where
  /-- `'不支援的動作類型: {action}，僅支援: ...'` — guard at source lines 124-134. -/
  | unsupportedAction (action : String)
  /-- `'無效的選擇器語法: {selector}'` — `N/A` sentinel or `window.location`
  expression, source lines 369-370. -/
  | invalidSelectorSyntax (selector : String)
  /-- `'Playwright 不支援 :contains() 偽選擇器語法'` — source lines 373-374
  and the rewriting handler at lines 355-356. -/
  | containsPseudoUnsupported
  /-- `'元素不存在'` — zero matches, source line 159. -/
  | notFound
  /-- `'元素不可見'` — source line 173. -/
  | notVisible
  /-- `'元素不可點擊'` — click branch, not enabled, source line 188. -/
  | notClickable
  /-- `'元素沒有可點擊的區域'` — click branch, missing or zero-area bounding
  box, source line 195. -/
  | noClickableArea
  /-- `'元素不可編輯'` — type branch, source line 215. -/
  | notEditable
  /-- `'元素無法接受輸入'` — type branch, probe string absent from the
  re-read value, source line 237. -/
  | inputNotAccepted
  /-- `'元素沒有可驗證的內容'` — verify branch advisory, source line 291. -/
  | noVerifiableContent
  /-- `'元素沒有導航功能的跡象'` — navigate branch advisory, source line 318. -/
  | noNavigationSigns
  /-- `'文本不匹配，期望包含: ..., 實際: ...'` — source line 343. -/
  | textMismatch (expected actual : String)
  /-- `'未知的動作類型: {action}'` — fall-through branch, source line 331. -/
  | unknownAction (action : String)
deriving DecidableEq

/-- The per-item result dict of `_test_single_selector` (source lines 140-150).
The early unrecognized-action result (source lines 125-132) omits the
`element_found` / `element_visible` / `text_matches` keys; it is modelled with
those fields at their falsy defaults. -/
structure ProbeResult where
  selector : String
  purpose : String
  element_type : String
  success : Bool
  element_found : Bool
  element_visible : Bool
  text_matches : Option Bool
  error : Option ProbeError
  current_url : String
deriving DecidableEq

/-- Engine calls a probe performs, recorded in order (one entry per kind of
call a stage makes, to witness which stages ran). -/
inductive DomOp where
  | createLocator
  | countQuery
  | visibilityCheck
  | enabledCheck
  | boundingBoxQuery
  | focusCall
  | editableCheck
  | valueRead
  | clearCall
  | fillCall
  | hoverCall
  | contentRead
  | attributeRead
  | styleRead
deriving DecidableEq

/-- Outcome of one probe: the result dict, the engine calls made, and the
element's value after the probe (only the `type` branch ever writes it). -/
structure ProbeOutcome where
  result : ProbeResult
  ops : List DomOp
  finalValue : String

/-- `_create_locator_from_selector` (source lines 365-381): raises on the
`N/A` sentinel or an embedded `window.location` expression, raises on the
`:contains(` pseudo-selector, otherwise yields a locator (path-query routing
for a leading `//`, structural query otherwise — both succeed, so the routing
is not observable here). -/
def create_locator_from_selector (selector : String) : Except ProbeError Unit :=
  if charsStartWith selector "N/A" = true ∨ strContains selector "window.location" = true then
    .error (.invalidSelectorSyntax selector)
  else if strContains selector ":contains(" = true then
    .error .containsPseudoUnsupported
  else
    .ok ()

/-- The suffix after each occurrence of `marker` in a character list,
earliest occurrence first (the continuation points `re.search` tries for a
pattern with literal prefix `marker`; overlapping occurrences included,
as `re.search` tries every start position). -/
def suffixesAfterCh (marker : List Char) : List Char → List (List Char)
  | [] => []
  | c :: t =>
    if charsPrefixOf marker (c :: t) then
      (c :: t).drop marker.length :: suffixesAfterCh marker t
    else
      suffixesAfterCh marker t

/-- Capture of `([^s]+)s` at the start of `suffix` for stop characters
`stops`: a maximal nonempty run of non-stop characters followed by a stop
character. -/
def captureUpTo (suffix : List Char) (stops : List Char) : Option String :=
  let cap := suffix.takeWhile fun c => !stops.contains c
  if cap.isEmpty then none
  else if cap.length < suffix.length then some (String.mk cap) else none

/-- First occurrence of `marker` in `sel` that is followed by a valid
`([^s]+)s` capture, as `re.search` of the concatenated pattern finds it. -/
def firstCapture (sel marker : String) (stops : List Char) : Option String :=
  (suffixesAfterCh marker.toList sel.toList).findSome? fun suffix =>
    captureUpTo suffix stops

/-- Capture of `\s*['\"]([^'\"]+)['\"]` at the start of `suffix` (the tail of
the third pattern of `_extract_text_expectation`). -/
def captureQuoted (suffix : List Char) : Option String :=
  match suffix.dropWhile Char.isWhitespace with
  | [] => none
  | q :: rest =>
    if q = squote ∨ q = dquote then
      let cap := rest.takeWhile fun c => c != squote && c != dquote
      if cap.isEmpty then none
      else if cap.length < rest.length then some (String.mk cap) else none
    else none

/-- Literal prefix of the pattern `text\(\)='([^']+)'`. -/
def textEqMarker : String := "text()=" ++ String.mk [squote]

/-- Literal prefix of the pattern `normalize-space\(\)='([^']+)'`. -/
def normSpaceMarker : String := "normalize-space()=" ++ String.mk [squote]

/-- Literal prefix of the pattern `contains\(text\(\),\s*['\"]([^'\"]+)['\"]`. -/
def containsTextMarker : String := "contains(text(),"

/-- `_extract_text_expectation` (source lines 383-400): the three recognized
path-query text-expectation forms, tried in order; `none` when no pattern
matches. -/
def extract_text_expectation (selector : String) : Option String :=
  match firstCapture selector textEqMarker [squote] with
  | some t => some t
  | none =>
    match firstCapture selector normSpaceMarker [squote] with
    | some t => some t
    | none =>
      (suffixesAfterCh containsTextMarker.toList selector.toList).findSome? captureQuoted

/-- The mutable result dict as initialized at source lines 140-150, before
any engine call. -/
def baseResult (info : SelectorInfo) (page : PageEnv) : ProbeResult :=
  { selector := info.selector, purpose := info.purpose,
    element_type := info.element_type, success := false,
    element_found := false, element_visible := false,
    text_matches := none, error := none, current_url := page.url }

/-- Verify branch (source lines 269-294): does the element expose any
verifiable signal — nonempty text content, a readable nonempty input value,
or one of the attributes `title`, `alt`, `data-value`, `aria-label`?
An exception from `input_value()` (modelled by `input_value = none`) leaves
`has_value` false. -/
def hasVerifiableSignal (e : ElementState) : Bool :=
  let has_text := e.text_content ≠ ""
  let has_value := e.input_value.getD "" ≠ ""
  let has_attribute :=
    (["title", "alt", "data-value", "aria-label"].any fun a => (e.attr a).getD "" != "")
  has_text || has_value || has_attribute

/-- Navigate branch (source lines 306-315): Python's
`href and href != "#" and not href.startswith("javascript:void") or onclick or
cursor == "pointer"`, with `None` and `""` attribute reads falsy. -/
def navigationSigns (e : ElementState) : Bool :=
  let href := (e.attr "href").getD ""
  let onclick := (e.attr "onclick").getD ""
  (href ≠ "" ∧ href ≠ "#" ∧ href.startsWith "javascript:void" = false)
    || onclick ≠ "" || e.cursor = "pointer"

/-- Final stage of `_test_single_selector` (source lines 335-351): the
text-expectation check, then `result['success'] = True`.  A prior advisory
error on `r` is *not* cleared when success is set. -/
def afterAction (info : SelectorInfo) (page : PageEnv) (r : ProbeResult)
    (ops : List DomOp) (finalV : String) : ProbeOutcome :=
  match extract_text_expectation info.selector with
  | none =>
    { result := { r with success := true }, ops := ops, finalValue := finalV }
  | some expected =>
    let actual := page.elem.text_content
    let m := strContains actual expected
    let r1 := { r with text_matches := some m }
    if m then
      { result := { r1 with success := true }, ops := ops ++ [.contentRead],
        finalValue := finalV }
    else
      { result := { r1 with error := some (.textMismatch expected actual) },
        ops := ops ++ [.contentRead], finalValue := finalV }

/-- Click-branch bounding-box check (source line 194): Python's
`not bounding_box or bounding_box['width'] == 0 or bounding_box['height'] == 0`. -/
def noClickArea : Option BBox → Bool
  | none => true
  | some bb => decide (bb.width = 0) || decide (bb.height = 0)

/-- Action-specific feasibility checks of `_test_single_selector`
(source lines 180-333), entered with the element found and visible.
`r` carries `element_found = true`, `element_visible = true`. -/
def actionStage (info : SelectorInfo) (page : PageEnv) (r : ProbeResult)
    (action : String) : ProbeOutcome :=
  let ops0 : List DomOp := [.createLocator, .countQuery, .visibilityCheck]
  let fv := preProbeValue page.elem
  if action = "click" then
    -- source lines 183-204
    if page.elem.is_enabled = false then
      { result := { r with error := some .notClickable },
        ops := ops0 ++ [.enabledCheck], finalValue := fv }
    else
      if noClickArea page.elem.bounding_box = true then
        { result := { r with error := some .noClickableArea },
          ops := ops0 ++ [.enabledCheck, .boundingBoxQuery], finalValue := fv }
      else
        afterAction info page r (ops0 ++ [.enabledCheck, .boundingBoxQuery]) fv
  else if action = "type" then
    -- source lines 206-251
    let opsT := ops0 ++ [.focusCall, .editableCheck]
    if page.elem.is_editable = false then
      { result := { r with error := some .notEditable }, ops := opsT, finalValue := fv }
    else
      let original_value := preProbeValue page.elem
      -- clear() then fill("test"); the re-read returns the element's value
      let current_value := page.elem.writeVal "test"
      if strContains current_value "test" = false then
        -- source lines 236-239: early return, the restore at 241-244 is skipped
        { result := { r with error := some .inputNotAccepted },
          ops := opsT ++ [.valueRead, .clearCall, .fillCall, .valueRead],
          finalValue := current_value }
      else
        -- source lines 241-244: clear(), then fill(original_value) if truthy
        let cleared := page.elem.writeVal ""
        let restored := if original_value ≠ "" then page.elem.writeVal original_value
                        else cleared
        afterAction info page r
          (opsT ++ [.valueRead, .clearCall, .fillCall, .valueRead, .clearCall, .fillCall])
          restored
  else if action = "hover" then
    -- source lines 253-265: the hover is performed; in the model it cannot raise
    afterAction info page r (ops0 ++ [.hoverCall]) fv
  else if action = "verify" then
    -- source lines 267-300: missing signal is advisory, does not return
    let r1 := if hasVerifiableSignal page.elem then r
              else { r with error := some .noVerifiableContent }
    afterAction info page r1 (ops0 ++ [.contentRead, .valueRead, .attributeRead]) fv
  else if action = "navigate" then
    -- source lines 302-327: missing cues are advisory, does not return
    let r1 := if navigationSigns page.elem then r
              else { r with error := some .noNavigationSigns }
    afterAction info page r1 (ops0 ++ [.attributeRead, .attributeRead, .styleRead]) fv
  else
    -- source lines 329-333: only reachable with an empty action, because the
    -- guard at lines 124-134 intercepts nonempty unrecognized actions
    { result := { r with error := some (.unknownAction action) }, ops := ops0,
      finalValue := fv }

/-- Visibility pre-check (source lines 166-177), entered with ≥ 1 match. -/
def visibleStage (info : SelectorInfo) (page : PageEnv) (action : String) :
    ProbeOutcome :=
  let r := { baseResult info page with element_found := true }
  if page.elem.is_visible = false then
    { result := { r with element_visible := false, error := some .notVisible },
      ops := [.createLocator, .countQuery, .visibilityCheck],
      finalValue := preProbeValue page.elem }
  else
    actionStage info page { r with element_visible := true } action

/-- Existence pre-check (source lines 156-164). -/
def foundStage (info : SelectorInfo) (page : PageEnv) (action : String) :
    ProbeOutcome :=
  if page.element_count = 0 then
    { result := { baseResult info page with error := some .notFound },
      ops := [.createLocator, .countQuery], finalValue := preProbeValue page.elem }
  else
    visibleStage info page action

/-- Locator resolution inside the probe's `try` (source line 154) together
with the `except` handler (source lines 353-358): any raised error is
rewritten to the `:contains()` classification whenever the selector contains
`:contains(`. -/
def resolveStage (info : SelectorInfo) (page : PageEnv) (action : String) :
    ProbeOutcome :=
  match create_locator_from_selector info.selector with
  | .error e =>
    let err := if strContains info.selector ":contains(" = true then
                 ProbeError.containsPseudoUnsupported
               else e
    { result := { baseResult info page with error := some err },
      ops := [.createLocator], finalValue := preProbeValue page.elem }
  | .ok _ => foundStage info page action

/-- `_test_single_selector` (source lines 114-361): the per-item feasibility
probe.  The guard at lines 124-134 rejects a nonempty action outside
`VALID_ACTIONS` before any engine call. -/
def test_single_selector (info : SelectorInfo) (page : PageEnv) : ProbeOutcome :=
  let action := normalizeAction info.element_action
  if action ≠ "" ∧ validActions.contains action = false then
    { result := { selector := info.selector, purpose := info.purpose,
                  element_type := info.element_type, success := false,
                  element_found := false, element_visible := false,
                  text_matches := none,
                  error := some (.unsupportedAction action),
                  current_url := page.url },
      ops := [], finalValue := preProbeValue page.elem }
  else
    resolveStage info page action

/-- `_should_attempt_navigation` (source lines 402-415). -/
def should_attempt_navigation (result : ProbeResult) (info : SelectorInfo) : Bool :=
  if result.success = false then
    false
  else
    let action := normalizeAction info.element_action
    let element_type := strLower info.element_type
    let is_navigation_action := action == "click" || action == "navigate"
    let is_navigation_element :=
      ["link", "button", "menu", "nav"].any fun keyword => strContains element_type keyword
    is_navigation_action && is_navigation_element

/-- The aggregate report dict of `_calculate_validation_results`
(source lines 469-477).  `failure_rate` is a rational standing in for the
Python float. -/
structure ValidationReport where
  total_selectors : Nat
  successful_selectors : Nat
  failed_selectors : Nat
  failure_rate : ℚ
  failed_details : List ProbeResult
  all_results : List ProbeResult
  validation_passed : Bool

/-- `_calculate_validation_results` (source lines 449-477). -/
def calculate_validation_results (validation_results : List ProbeResult) :
    ValidationReport :=
  let total_selectors := validation_results.length
  let successful_selectors := (validation_results.filter fun r => r.success).length
  let failed_selectors := total_selectors - successful_selectors
  let failure_rate : ℚ :=
    if total_selectors = 0 then 0
    else ((failed_selectors : ℚ) / (total_selectors : ℚ)) * 100
  { total_selectors := total_selectors,
    successful_selectors := successful_selectors,
    failed_selectors := failed_selectors,
    failure_rate := failure_rate,
    failed_details := validation_results.filter fun r => !r.success,
    all_results := validation_results,
    validation_passed := decide (failure_rate ≤ 0) }

/-- One entry of `ai_enhanced_target_elements` as read by
`extract_primary_selectors_from_strategy` (source lines 30-49); missing keys
are the empty string. -/
structure TargetElement where
  element_type : String
  purpose : String
  action : String
  primary : String
  reasoning : String
deriving DecidableEq

/-- `extract_primary_selectors_from_strategy` (source lines 30-49): keep, in
order, the elements with a truthy primary selector, remembering each one's
index in the original list. -/
def extract_primary_selectors_from_strategy (target_elements : List TargetElement) :
    List SelectorInfo :=
  (target_elements.enum.filter fun p => p.2.primary ≠ "").map fun p =>
    { selector := p.2.primary, element_index := p.1,
      element_type := p.2.element_type, purpose := p.2.purpose,
      element_action := p.2.action, reasoning := p.2.reasoning }

/-- Outcome of `StrategyValidator.validate_strategy` (source lines 485-539):
the early message-only pass when no primary selectors were extracted, the
positive report, or the raised `ValidationError` carrying the failure rate
and at most the first three failing items. -/
inductive StrategyOutcome where
  /-- `{'validation_passed': True, 'message': ...}` — source lines 509-513;
  the sequential probe loop is never entered on this path. -/
  | vacuousPass (message : String)
  /-- `{'validation_passed': True, 'validation_results': ...}` — lines 536-539. -/
  | passedReport (report : ValidationReport)
  /-- The raised `ValidationError` — source lines 521-530. -/
  | validationFailed (failure_rate : ℚ) (failed_details : List ProbeResult)

/-- `StrategyValidator.validate_strategy` (source lines 485-539) composed
with `_execute_sequential_validation`'s probe loop (source lines 68-96),
with the live page at each step supplied by `envs` (sequential navigation
side effects are reflected in successive entries). -/
def validate_strategy (target_elements : List TargetElement)
    (envs : List PageEnv) : StrategyOutcome :=
  let selectors := extract_primary_selectors_from_strategy target_elements
  if selectors.isEmpty then
    .vacuousPass "未發現需要驗證的主要選擇器"
  else
    let results := (selectors.zip envs).map fun p => (test_single_selector p.1 p.2).result
    let report := calculate_validation_results results
    if report.validation_passed then
      .passedReport report
    else
      .validationFailed report.failure_rate (report.failed_details.take 3)

/-! ## Spec-side definitions for refinement comparison -/

/-- The navigation-eligibility gate as the specification words it: the probe
succeeded, the action string is literally one of `click` / `navigate`, and
the element type contains one of the keywords `link` / `button` / `menu` /
`nav` as a case-insensitive substring. -/
def nav_gate_claimed (result : ProbeResult) (info : SelectorInfo) : Bool :=
  result.success
    && (info.element_action == "click" || info.element_action == "navigate")
    && (["link", "button", "menu", "nav"].any fun keyword =>
          strContains (strLower info.element_type) keyword)

/-- The error classifications the specification enumerates for an item with
an absent action: not-found, not-visible, or the unknown-action fall-through. -/
def absentActionClaimedError : Option ProbeError → Bool
  | some ProbeError.notFound => true
  | some ProbeError.notVisible => true
  | some (ProbeError.unknownAction _) => true
  | _ => false

/-! ## Concrete fixtures -/

/-- A found, visible, enabled, editable element with a 10×10 box, value
`hello`, no attributes, and a value-preserving write behavior. -/
def elemOk : ElementState :=
  { is_visible := true, is_enabled := true, bounding_box := some ⟨10, 10⟩,
    is_editable := true, input_value := some "hello", text_content := "hello",
    attr := fun _ => none, cursor := "auto", writeVal := fun s => s }

/-- A page with exactly one match, the `elemOk` element. -/
def envOk : PageEnv :=
  { url := "https://example.test/", element_count := 1, elem := elemOk }

/-- A well-formed click spec. -/
def specClick : SelectorInfo :=
  { selector := "#buy", element_index := 0, element_type := "button",
    purpose := "buy button", element_action := "click", reasoning := "" }

/-- Same spec with the action spelled `Click` (normalizes to `click`). -/
def specCapClick : SelectorInfo := { specClick with element_action := "Click" }

/-- Same spec with the out-of-enum action `submit`. -/
def specSubmit : SelectorInfo := { specClick with element_action := "submit" }

/-- A `:contains(` selector with the out-of-enum action `submit`. -/
def specContainsSubmit : SelectorInfo :=
  { specClick with selector := "div:contains(Sale)", element_action := "submit" }

/-- A `:contains(` selector with the recognized action `verify`. -/
def specContainsVerify : SelectorInfo :=
  { specClick with selector := "div:contains(Sale)", element_action := "verify" }

/-- A `:contains(` selector with an absent (empty) action. -/
def specEmptyContains : SelectorInfo :=
  { specClick with selector := "div:contains(Sale)", element_action := "" }

/-- A type spec against an input field. -/
def specType : SelectorInfo :=
  { specClick with
    selector := "#qty"
    element_action := "type"
    element_type := "input"
    purpose := "quantity field" }

/-- A verify spec. -/
def specVerify : SelectorInfo :=
  { specClick with selector := "#info", element_action := "verify" }

/-- A navigate spec. -/
def specNav : SelectorInfo :=
  { specClick with
    selector := "#maybe"
    element_action := "navigate"
    element_type := "link" }

/-- A write behavior that keeps only digit characters: a numeric-only
framework-controlled input that rewrites any programmatic write. -/
def digitWrite (s : String) : String := String.mk (s.toList.filter Char.isDigit)

/-- An editable element holding `123` behind the digit-filtering behavior. -/
def elemDigits : ElementState :=
  { elemOk with input_value := some "123", writeVal := digitWrite }

/-- Page wrapping `elemDigits`. -/
def envDigits : PageEnv := { envOk with elem := elemDigits }

/-- A found, visible element with no text, no readable input value, no
attributes, default cursor — no verifiable signal and no navigation cue. -/
def elemBlank : ElementState :=
  { elemOk with input_value := none, text_content := "" }

/-- Page wrapping `elemBlank`. -/
def envBlank : PageEnv := { envOk with elem := elemBlank }

/-- A found, visible but disabled element with no bounding box. -/
def elemDisabledNoBox : ElementState :=
  { elemOk with is_enabled := false, bounding_box := none }

/-- Page wrapping `elemDisabledNoBox`. -/
def envDisabledNoBox : PageEnv := { envOk with elem := elemDisabledNoBox }

/-- An enabled element whose bounding box has zero width. -/
def elemZeroBox : ElementState := { elemOk with bounding_box := some ⟨0, 5⟩ }

/-- Page wrapping `elemZeroBox`. -/
def envZeroBox : PageEnv := { envOk with elem := elemZeroBox }

/-- A per-item result whose probe succeeded. -/
def resultOk : ProbeResult :=
  { selector := "#buy", purpose := "buy button", element_type := "button",
    success := true, element_found := true, element_visible := true,
    text_matches := none, error := none, current_url := "https://example.test/" }

/-! ## Helper lemmas -/

theorem calc_total (rs : List ProbeResult) :
    (calculate_validation_results rs).total_selectors = rs.length := rfl

theorem calc_succ (rs : List ProbeResult) :
    (calculate_validation_results rs).successful_selectors
      = (rs.filter fun r => r.success).length := rfl

theorem calc_failed (rs : List ProbeResult) :
    (calculate_validation_results rs).failed_selectors
      = rs.length - (rs.filter fun r => r.success).length := rfl

theorem calc_rate (rs : List ProbeResult) :
    (calculate_validation_results rs).failure_rate
      = if rs.length = 0 then 0
        else ((rs.length - (rs.filter fun r => r.success).length : ℕ) : ℚ)
              / (rs.length : ℚ) * 100 := rfl

theorem calc_details (rs : List ProbeResult) :
    (calculate_validation_results rs).failed_details
      = rs.filter fun r => !r.success := rfl

theorem calc_passed (rs : List ProbeResult) :
    (calculate_validation_results rs).validation_passed
      = decide ((calculate_validation_results rs).failure_rate ≤ 0) := rfl

theorem filter_length_eq_length_iff {α : Type} (p : α → Bool) (l : List α) :
    (l.filter p).length = l.length ↔ ∀ a ∈ l, p a = true := by
  simp [List.filter_length_eq_length]

theorem rate_nonpos_iff (rs : List ProbeResult) :
    (calculate_validation_results rs).failure_rate ≤ 0 ↔
      (calculate_validation_results rs).failed_selectors = 0 := by
  rw [calc_rate, calc_failed]
  by_cases h : rs.length = 0
  · have hf : (rs.filter fun r => r.success).length = 0 := by
      have := List.length_filter_le (fun r => r.success) rs
      omega
    simp [h, hf]
  · rw [if_neg h]
    have hn : (0 : ℚ) < (rs.length : ℚ) := by
      exact_mod_cast Nat.pos_of_ne_zero h
    constructor
    · intro hr
      by_contra hfne
      have hfpos : (0 : ℚ) < ((rs.length - (rs.filter fun r => r.success).length : ℕ) : ℚ) := by
        exact_mod_cast Nat.pos_of_ne_zero hfne
      have : (0 : ℚ) <
          ((rs.length - (rs.filter fun r => r.success).length : ℕ) : ℚ)
            / (rs.length : ℚ) * 100 := by positivity
      linarith
    · intro hfe
      rw [hfe]
      norm_num

theorem failed_zero_iff_all_success (rs : List ProbeResult) :
    (calculate_validation_results rs).failed_selectors = 0 ↔
      ∀ r ∈ rs, r.success = true := by
  rw [calc_failed]
  have hle := List.length_filter_le (fun r => r.success) rs
  rw [← filter_length_eq_length_iff (fun r => r.success) rs]
  omega

/-! ## Claim C1 -/

/-- **C1.** For every list of per-item validation results, the aggregated
report has `validation_passed = true` iff `failure_rate ≤ 0`, which holds iff
`failed_selectors = 0`, i.e. iff every item's probe succeeded — a single
failing item makes the batch fail. -/
theorem agg_passed_iff_zero_failures (rs : List ProbeResult) :
    ((calculate_validation_results rs).validation_passed = true ↔
      (calculate_validation_results rs).failure_rate ≤ 0)
    ∧ ((calculate_validation_results rs).validation_passed = true ↔
      (calculate_validation_results rs).failed_selectors = 0)
    ∧ ((calculate_validation_results rs).validation_passed = true ↔
      ∀ r ∈ rs, r.success = true) := by
  have hp : (calculate_validation_results rs).validation_passed = true ↔
      (calculate_validation_results rs).failure_rate ≤ 0 := by
    rw [calc_passed]
    exact decide_eq_true_iff
  refine ⟨hp, hp.trans (rate_nonpos_iff rs),
    hp.trans ((rate_nonpos_iff rs).trans (failed_zero_iff_all_success rs))⟩

/-- Concrete check of `agg_passed_iff_zero_failures`: a singleton list whose
item succeeded yields a passed report. -/
theorem agg_passed_iff_zero_failures_witness :
    (calculate_validation_results
      [{ selector := "#ok", purpose := "", element_type := "", success := true,
         element_found := true, element_visible := true, text_matches := none,
         error := none, current_url := "" }]).validation_passed = true :=
  (agg_passed_iff_zero_failures _).2.2.mpr (by simp)

/-! ## Claim C2 -/

/-- **C2.** The aggregated report's counters and details: `total_selectors`
is the input length, `successful + failed = total`,
`failure_rate = 100 * failed / total` (`0` for an empty input), and
`failed_details` is exactly the sublist of failing results in input order. -/
theorem agg_report_shape (rs : List ProbeResult) :
    (calculate_validation_results rs).total_selectors = rs.length
    ∧ (calculate_validation_results rs).successful_selectors
        + (calculate_validation_results rs).failed_selectors
        = (calculate_validation_results rs).total_selectors
    ∧ (calculate_validation_results rs).failure_rate
        = (if rs.length = 0 then 0
           else 100 * ((calculate_validation_results rs).failed_selectors : ℚ)
                  / (rs.length : ℚ))
    ∧ (calculate_validation_results rs).failed_details.Sublist rs
    ∧ (∀ r ∈ (calculate_validation_results rs).failed_details, r.success = false)
    ∧ (∀ r ∈ rs, r.success = false →
        r ∈ (calculate_validation_results rs).failed_details) := by
  have hle := List.length_filter_le (fun r => r.success) rs
  refine ⟨calc_total rs, ?_, ?_, ?_, ?_, ?_⟩
  · rw [calc_total, calc_succ, calc_failed]
    omega
  · rw [calc_rate, calc_failed]
    by_cases h : rs.length = 0
    · simp [h]
    · rw [if_neg h, if_neg h, div_mul_eq_mul_div, mul_comm]
  · rw [calc_details]
    exact List.filter_sublist rs
  · rw [calc_details]
    intro r hr
    have := (List.mem_filter.mp hr).2
    simpa using this
  · rw [calc_details]
    intro r hr hf
    exact List.mem_filter.mpr ⟨hr, by simp [hf]⟩

/-- Concrete check of `agg_report_shape` on a singleton failing list. -/
theorem agg_report_shape_witness :
    (calculate_validation_results
      [{ selector := "#bad", purpose := "", element_type := "", success := false,
         element_found := false, element_visible := false, text_matches := none,
         error := some ProbeError.notFound, current_url := "" }]).total_selectors = 1 :=
  (agg_report_shape _).1

/-! ## Claim C9 -/

/-- **C9.** An empty extracted selector list yields a vacuous pass: the façade
returns its message-only passed result without ever entering the per-selector
probe loop (the `vacuousPass` branch is the only one that does not invoke
`test_single_selector`), and the aggregator on an empty result list reports
`total_selectors = 0` with `validation_passed = true`. -/
theorem empty_selector_list_vacuous_pass :
    (∀ envs : List PageEnv,
      validate_strategy [] envs
        = StrategyOutcome.vacuousPass "未發現需要驗證的主要選擇器")
    ∧ (calculate_validation_results []).total_selectors = 0
    ∧ (calculate_validation_results []).validation_passed = true := by
  refine ⟨fun envs => rfl, rfl, ?_⟩
  rw [calc_passed]
  simp [calc_rate]

/-! ## Stage equations for the probe -/

theorem guard_neg_of_allowed (a : String)
    (h : a = "" ∨ validActions.contains a = true) :
    ¬(a ≠ "" ∧ validActions.contains a = false) := by
  intro hc
  rcases h with h | h
  · exact hc.1 h
  · rw [h] at hc
    exact Bool.noConfusion hc.2

theorem test_single_selector_early (info : SelectorInfo) (page : PageEnv)
    (h1 : normalizeAction info.element_action ≠ "")
    (h2 : validActions.contains (normalizeAction info.element_action) = false) :
    test_single_selector info page =
      { result := { selector := info.selector, purpose := info.purpose,
                    element_type := info.element_type, success := false,
                    element_found := false, element_visible := false,
                    text_matches := none,
                    error := some (ProbeError.unsupportedAction
                      (normalizeAction info.element_action)),
                    current_url := page.url },
        ops := [], finalValue := preProbeValue page.elem } := by
  simp only [test_single_selector]
  rw [if_pos ⟨h1, h2⟩]

theorem test_single_selector_resolve (info : SelectorInfo) (page : PageEnv)
    (h : ¬(normalizeAction info.element_action ≠ ""
        ∧ validActions.contains (normalizeAction info.element_action) = false)) :
    test_single_selector info page
      = resolveStage info page (normalizeAction info.element_action) := by
  simp only [test_single_selector]
  rw [if_neg h]

theorem create_err_of_contains (sel : String)
    (h : strContains sel ":contains(" = true) :
    ∃ e, create_locator_from_selector sel = .error e := by
  unfold create_locator_from_selector
  by_cases h1 : charsStartWith sel "N/A" = true ∨ strContains sel "window.location" = true
  · exact ⟨_, if_pos h1⟩
  · exact ⟨_, by rw [if_neg h1, if_pos h]⟩

theorem create_locator_cases (sel : String) :
    create_locator_from_selector sel
        = .error (.invalidSelectorSyntax sel)
    ∨ create_locator_from_selector sel = .error .containsPseudoUnsupported
    ∨ create_locator_from_selector sel = .ok () := by
  unfold create_locator_from_selector
  by_cases h1 : charsStartWith sel "N/A" = true ∨ strContains sel "window.location" = true
  · exact Or.inl (if_pos h1)
  · by_cases h2 : strContains sel ":contains(" = true
    · refine Or.inr (Or.inl ?_)
      rw [if_neg h1, if_pos h2]
    · refine Or.inr (Or.inr ?_)
      rw [if_neg h1, if_neg h2]

theorem resolveStage_err (info : SelectorInfo) (page : PageEnv) (action : String)
    (e : ProbeError) (h : create_locator_from_selector info.selector = .error e) :
    resolveStage info page action =
      { result := { baseResult info page with
          error := some (if strContains info.selector ":contains(" = true then
                           ProbeError.containsPseudoUnsupported else e) },
        ops := [DomOp.createLocator], finalValue := preProbeValue page.elem } := by
  simp only [resolveStage]
  rw [h]

theorem resolveStage_ok (info : SelectorInfo) (page : PageEnv) (action : String)
    (h : create_locator_from_selector info.selector = .ok ()) :
    resolveStage info page action = foundStage info page action := by
  simp only [resolveStage]
  rw [h]

theorem foundStage_notFound (info : SelectorInfo) (page : PageEnv) (action : String)
    (h : page.element_count = 0) :
    foundStage info page action =
      { result := { baseResult info page with error := some ProbeError.notFound },
        ops := [DomOp.createLocator, DomOp.countQuery],
        finalValue := preProbeValue page.elem } := by
  simp only [foundStage]
  rw [if_pos h]

theorem foundStage_found (info : SelectorInfo) (page : PageEnv) (action : String)
    (h : page.element_count ≠ 0) :
    foundStage info page action = visibleStage info page action := by
  simp only [foundStage]
  rw [if_neg h]

theorem visibleStage_notVisible (info : SelectorInfo) (page : PageEnv) (action : String)
    (h : page.elem.is_visible = false) :
    visibleStage info page action =
      { result := { baseResult info page with
                    element_found := true
                    element_visible := false
                    error := some ProbeError.notVisible },
        ops := [DomOp.createLocator, DomOp.countQuery, DomOp.visibilityCheck],
        finalValue := preProbeValue page.elem } := by
  simp only [visibleStage]
  rw [if_pos h]

theorem visibleStage_visible (info : SelectorInfo) (page : PageEnv) (action : String)
    (h : page.elem.is_visible = true) :
    visibleStage info page action =
      actionStage info page
        { baseResult info page with element_found := true, element_visible := true }
        action := by
  simp only [visibleStage]
  rw [if_neg (by simp [h])]

theorem probe_reaches_action (info : SelectorInfo) (page : PageEnv)
    (hguard : ¬(normalizeAction info.element_action ≠ ""
        ∧ validActions.contains (normalizeAction info.element_action) = false))
    (hcreate : create_locator_from_selector info.selector = .ok ())
    (hcount : page.element_count ≠ 0)
    (hvis : page.elem.is_visible = true) :
    test_single_selector info page =
      actionStage info page
        { baseResult info page with element_found := true, element_visible := true }
        (normalizeAction info.element_action) := by
  rw [test_single_selector_resolve info page hguard,
    resolveStage_ok info page _ hcreate,
    foundStage_found info page _ hcount,
    visibleStage_visible info page _ hvis]

theorem afterAction_no_expectation (info : SelectorInfo) (page : PageEnv)
    (r : ProbeResult) (ops : List DomOp) (fv : String)
    (h : extract_text_expectation info.selector = none) :
    afterAction info page r ops fv =
      { result := { r with success := true }, ops := ops, finalValue := fv } := by
  simp only [afterAction]
  rw [h]

theorem noClickArea_iff (b : Option BBox) :
    noClickArea b = true ↔
      (b = none ∨ ∃ bb, b = some bb ∧ (bb.width = 0 ∨ bb.height = 0)) := by
  cases b with
  | none => simp [noClickArea]
  | some bb => simp [noClickArea]

theorem actionStage_click_zero_area (info : SelectorInfo) (page : PageEnv)
    (r : ProbeResult) (hen : page.elem.is_enabled = true)
    (hbb : noClickArea page.elem.bounding_box = true) :
    actionStage info page r "click" =
      { result := { r with error := some ProbeError.noClickableArea },
        ops := [DomOp.createLocator, DomOp.countQuery, DomOp.visibilityCheck,
                DomOp.enabledCheck, DomOp.boundingBoxQuery],
        finalValue := preProbeValue page.elem } := by
  simp only [actionStage]
  rw [if_pos trivial, if_neg (by simp [hen]), if_pos hbb]
  rfl

theorem actionStage_verify (info : SelectorInfo) (page : PageEnv) (r : ProbeResult) :
    actionStage info page r "verify" =
      afterAction info page
        (if hasVerifiableSignal page.elem then r
         else { r with error := some ProbeError.noVerifiableContent })
        [DomOp.createLocator, DomOp.countQuery, DomOp.visibilityCheck,
         DomOp.contentRead, DomOp.valueRead, DomOp.attributeRead]
        (preProbeValue page.elem) := by
  simp only [actionStage]
  rw [if_neg (by decide), if_neg (by decide), if_neg (by decide), if_pos trivial]
  rfl

theorem actionStage_navigate (info : SelectorInfo) (page : PageEnv) (r : ProbeResult) :
    actionStage info page r "navigate" =
      afterAction info page
        (if navigationSigns page.elem then r
         else { r with error := some ProbeError.noNavigationSigns })
        [DomOp.createLocator, DomOp.countQuery, DomOp.visibilityCheck,
         DomOp.attributeRead, DomOp.attributeRead, DomOp.styleRead]
        (preProbeValue page.elem) := by
  simp only [actionStage]
  rw [if_neg (by decide), if_neg (by decide), if_neg (by decide),
    if_neg (by decide), if_pos trivial]
  rfl

theorem actionStage_empty (info : SelectorInfo) (page : PageEnv) (r : ProbeResult) :
    actionStage info page r "" =
      { result := { r with error := some (ProbeError.unknownAction "") },
        ops := [DomOp.createLocator, DomOp.countQuery, DomOp.visibilityCheck],
        finalValue := preProbeValue page.elem } := by
  simp only [actionStage]
  rw [if_neg (by decide), if_neg (by decide), if_neg (by decide),
    if_neg (by decide), if_neg (by decide)]

/-! ## Claim C3 -/

/-- **C3 (code bug).** The probe evaluated at the failing input: a `type`
probe on a found, visible, editable element whose page logic keeps only
digit characters of any programmatic write (`envDigits`, pre-probe value
`123`).  The probe takes the input-not-accepted path (source lines 236-239)
and returns there *without* executing the restore of source lines 241-244,
leaving the element's value empty instead of `123` — against the claimed
unconditional round-trip restoration. -/
theorem type_probe_failure_skips_restore :
    preProbeValue envDigits.elem = "123"
    ∧ (test_single_selector specType envDigits).result.success = false
    ∧ (test_single_selector specType envDigits).result.error
        = some ProbeError.inputNotAccepted
    ∧ (test_single_selector specType envDigits).finalValue = ""
    ∧ (test_single_selector specType envDigits).finalValue
        ≠ preProbeValue envDigits.elem :=
  ⟨rfl, rfl, rfl, rfl, by decide⟩

/-! ## Claim C4 -/

/-- **C4 counterexample.** An item whose selector contains `:contains(` but
whose action is the out-of-enum `submit` fails with the unrecognized-action
classification (guard at source lines 124-134), not with the
unsupported-syntax classification the claim requires for every item with
such a selector. -/
theorem contains_selector_claim_cx :
    (test_single_selector specContainsSubmit envOk).result.success = false
    ∧ (test_single_selector specContainsSubmit envOk).result.error
        = some (ProbeError.unsupportedAction "submit")
    ∧ (test_single_selector specContainsSubmit envOk).result.error
        ≠ some ProbeError.containsPseudoUnsupported :=
  ⟨rfl, rfl, by decide⟩

/-- **C4 (amended).** For every item whose action (lowercased, trimmed) is
absent or one of the five recognized values and whose selector contains
`:contains(`, validation fails with the unsupported-syntax classification
and `success = false`, independently of the DOM (the page is universally
quantified), and no count, visibility or content checks are attempted — the
only engine call is the locator-resolution attempt. -/
theorem contains_selector_rejected (info : SelectorInfo) (page : PageEnv)
    (hact : normalizeAction info.element_action = ""
      ∨ validActions.contains (normalizeAction info.element_action) = true)
    (hsel : strContains info.selector ":contains(" = true) :
    (test_single_selector info page).result.success = false
    ∧ (test_single_selector info page).result.error
        = some ProbeError.containsPseudoUnsupported
    ∧ (test_single_selector info page).ops = [DomOp.createLocator] := by
  rw [test_single_selector_resolve info page (guard_neg_of_allowed _ hact)]
  rcases create_err_of_contains info.selector hsel with ⟨e, he⟩
  rw [resolveStage_err info page _ e he, if_pos hsel]
  exact ⟨rfl, rfl, rfl⟩

/-- Concrete check of `contains_selector_rejected` on a `verify` item. -/
theorem contains_selector_rejected_witness :
    (test_single_selector specContainsVerify envOk).result.error
      = some ProbeError.containsPseudoUnsupported :=
  (contains_selector_rejected specContainsVerify envOk (Or.inr rfl) rfl).2.1

/-! ## Claim C5 -/

/-- **C5 counterexample.** `Click` is nonempty and not literally one of the
five enum values, yet the probe normalizes it to `click` (source line 121)
and proceeds to a fully successful DOM probe instead of the immediate
unrecognized-action failure the claim requires. -/
theorem invalid_action_claim_cx :
    ("Click" : String) ≠ ""
    ∧ validActions.contains "Click" = false
    ∧ (test_single_selector specCapClick envOk).result.success = true :=
  ⟨by decide, rfl, rfl⟩

/-- **C5 (amended).** For every spec whose action string normalizes
(lowercased, trimmed) to a nonempty value outside the five-value enum, the
probe immediately yields `success = false` with the unrecognized-action
classification and performs no engine call at all (`ops = []`), for every
page state — the run continues with a recorded result rather than raising. -/
theorem invalid_action_early_failure (info : SelectorInfo) (page : PageEnv)
    (h1 : normalizeAction info.element_action ≠ "")
    (h2 : validActions.contains (normalizeAction info.element_action) = false) :
    (test_single_selector info page).result.success = false
    ∧ (test_single_selector info page).result.error
        = some (ProbeError.unsupportedAction (normalizeAction info.element_action))
    ∧ (test_single_selector info page).ops = [] := by
  rw [test_single_selector_early info page h1 h2]
  exact ⟨rfl, rfl, rfl⟩

/-- Concrete check of `invalid_action_early_failure` at action `submit`. -/
theorem invalid_action_early_failure_witness :
    (test_single_selector specSubmit envOk).result.error
      = some (ProbeError.unsupportedAction "submit")
    ∧ (test_single_selector specSubmit envOk).ops = [] := by
  have h := invalid_action_early_failure specSubmit envOk (by decide) rfl
  exact ⟨h.2.1, h.2.2⟩

/-! ## Claim C6 -/

/-- **C6 counterexample.** A click item whose element is found and visible
with a missing bounding box but *disabled*: the result has `success = false`
yet carries the not-clickable classification (the enabled check at source
lines 186-190 precedes the bounding-box check), not the no-clickable-area
error the claim asserts for every found, visible, zero-area click target. -/
theorem click_zero_bbox_claim_cx :
    (test_single_selector specClick envDisabledNoBox).result.success = false
    ∧ (test_single_selector specClick envDisabledNoBox).result.element_found = true
    ∧ (test_single_selector specClick envDisabledNoBox).result.element_visible = true
    ∧ (test_single_selector specClick envDisabledNoBox).result.error
        = some ProbeError.notClickable
    ∧ (test_single_selector specClick envDisabledNoBox).result.error
        ≠ some ProbeError.noClickableArea :=
  ⟨rfl, rfl, rfl, rfl, by decide⟩

/-- **C6 (amended).** For every click item whose element is found, visible
and *enabled* but whose bounding box is absent or has zero width or zero
height, the result has `success = false` with the no-clickable-area error
even though `element_found` and `element_visible` are both true. -/
theorem click_zero_area_fails (info : SelectorInfo) (page : PageEnv)
    (ha : normalizeAction info.element_action = "click")
    (hcr : create_locator_from_selector info.selector = .ok ())
    (hcount : page.element_count ≠ 0)
    (hvis : page.elem.is_visible = true)
    (hen : page.elem.is_enabled = true)
    (hbb : page.elem.bounding_box = none
      ∨ ∃ bb, page.elem.bounding_box = some bb ∧ (bb.width = 0 ∨ bb.height = 0)) :
    (test_single_selector info page).result.success = false
    ∧ (test_single_selector info page).result.error = some ProbeError.noClickableArea
    ∧ (test_single_selector info page).result.element_found = true
    ∧ (test_single_selector info page).result.element_visible = true := by
  have hguard := guard_neg_of_allowed (normalizeAction info.element_action)
      (Or.inr (by rw [ha]; rfl))
  rw [probe_reaches_action info page hguard hcr hcount hvis, ha,
    actionStage_click_zero_area info page _ hen ((noClickArea_iff _).mpr hbb)]
  exact ⟨rfl, rfl, rfl, rfl⟩

/-- Concrete check of `click_zero_area_fails` on a zero-width box. -/
theorem click_zero_area_fails_witness :
    (test_single_selector specClick envZeroBox).result.error
      = some ProbeError.noClickableArea :=
  (click_zero_area_fails specClick envZeroBox rfl rfl (by decide) rfl rfl
    (Or.inr ⟨⟨0, 5⟩, rfl, Or.inl rfl⟩)).2.1

/-! ## Claim C7 -/

/-- **C7 counterexample.** With a successful result and action `Click`, the
code's gate fires (it lowercases and trims the action, source line 407),
while the gate as the claim words it — requiring the action string to be
literally `click` or `navigate` — does not. -/
theorem nav_gate_claim_cx :
    should_attempt_navigation resultOk specCapClick = true
    ∧ nav_gate_claimed resultOk specCapClick = false :=
  ⟨rfl, rfl⟩

/-- **C7 (amended).** The navigation-eligibility gate returns true iff the
probe succeeded AND the action, lowercased and trimmed, is one of
`click` / `navigate` AND the element type contains one of the keywords
`link` / `button` / `menu` / `nav` as a case-insensitive substring;
if any conjunct fails it returns false. -/
theorem nav_gate_characterization (result : ProbeResult) (info : SelectorInfo) :
    should_attempt_navigation result info
      = (result.success
          && ((normalizeAction info.element_action == "click")
              || (normalizeAction info.element_action == "navigate"))
          && (["link", "button", "menu", "nav"].any fun keyword =>
                strContains (strLower info.element_type) keyword)) := by
  cases h : result.success with
  | false => simp [should_attempt_navigation, h]
  | true => simp [should_attempt_navigation, h]

/-! ## Claim C8 -/

/-- **C8.** Soft advisory errors: (a) a `verify` item on a found, visible
element exposing no verifiable signal gets the advisory
no-verifiable-content error recorded yet still ends with `success = true`;
(b) a `navigate` item on an element exhibiting none of the navigation cues
gets the advisory no-navigation-signs error recorded yet still ends with
`success = true` (absent a text expectation, which is an independent check). -/
theorem verify_navigate_soft_advisory :
    (∀ (info : SelectorInfo) (page : PageEnv),
      normalizeAction info.element_action = "verify" →
      create_locator_from_selector info.selector = .ok () →
      page.element_count ≠ 0 →
      page.elem.is_visible = true →
      hasVerifiableSignal page.elem = false →
      extract_text_expectation info.selector = none →
      (test_single_selector info page).result.success = true
      ∧ (test_single_selector info page).result.error
          = some ProbeError.noVerifiableContent)
    ∧ (∀ (info : SelectorInfo) (page : PageEnv),
      normalizeAction info.element_action = "navigate" →
      create_locator_from_selector info.selector = .ok () →
      page.element_count ≠ 0 →
      page.elem.is_visible = true →
      navigationSigns page.elem = false →
      extract_text_expectation info.selector = none →
      (test_single_selector info page).result.success = true
      ∧ (test_single_selector info page).result.error
          = some ProbeError.noNavigationSigns) := by
  constructor
  · intro info page ha hcr hcount hvis hsig hte
    have hguard := guard_neg_of_allowed (normalizeAction info.element_action)
      (Or.inr (by rw [ha]; rfl))
    rw [probe_reaches_action info page hguard hcr hcount hvis, ha,
      actionStage_verify, if_neg (by simp [hsig]),
      afterAction_no_expectation info page _ _ _ hte]
    exact ⟨rfl, rfl⟩
  · intro info page ha hcr hcount hvis hsig hte
    have hguard := guard_neg_of_allowed (normalizeAction info.element_action)
      (Or.inr (by rw [ha]; rfl))
    rw [probe_reaches_action info page hguard hcr hcount hvis, ha,
      actionStage_navigate, if_neg (by simp [hsig]),
      afterAction_no_expectation info page _ _ _ hte]
    exact ⟨rfl, rfl⟩

/-- Concrete check of `verify_navigate_soft_advisory` on a blank element. -/
theorem verify_navigate_soft_advisory_witness :
    ((test_single_selector specVerify envBlank).result.success = true
      ∧ (test_single_selector specVerify envBlank).result.error
          = some ProbeError.noVerifiableContent)
    ∧ ((test_single_selector specNav envBlank).result.success = true
      ∧ (test_single_selector specNav envBlank).result.error
          = some ProbeError.noNavigationSigns) :=
  ⟨verify_navigate_soft_advisory.1 specVerify envBlank rfl rfl (by decide) rfl rfl rfl,
   verify_navigate_soft_advisory.2 specNav envBlank rfl rfl (by decide) rfl rfl rfl⟩

/-! ## Claim C10 -/

/-- **C10 counterexample.** An item with an absent action and a `:contains(`
selector: the probe fails, but with the unsupported-syntax classification
raised during resolution — not one of the not-found / not-visible /
unknown-action classifications the claim enumerates. -/
theorem absent_action_claim_cx :
    (test_single_selector specEmptyContains envOk).result.success = false
    ∧ (test_single_selector specEmptyContains envOk).result.error
        = some ProbeError.containsPseudoUnsupported
    ∧ absentActionClaimedError
        (test_single_selector specEmptyContains envOk).result.error = false :=
  ⟨rfl, rfl, rfl⟩

/-- **C10 (amended).** For every spec whose action string is empty or
whitespace-only, the enum guard is bypassed and selector resolution is
attempted (the ops trace starts with the resolution call); the item's result
always has `success = false`, with an invalid-selector or unsupported-syntax
resolution error, a not-found or not-visible error, or — if found and
visible — the unknown-action classification.  An absent action can never
produce a successful item. -/
theorem absent_action_never_succeeds (info : SelectorInfo) (page : PageEnv)
    (h : normalizeAction info.element_action = "") :
    (test_single_selector info page).result.success = false
    ∧ ((test_single_selector info page).result.error
          = some (ProbeError.invalidSelectorSyntax info.selector)
        ∨ (test_single_selector info page).result.error
          = some ProbeError.containsPseudoUnsupported
        ∨ (test_single_selector info page).result.error = some ProbeError.notFound
        ∨ (test_single_selector info page).result.error = some ProbeError.notVisible
        ∨ (test_single_selector info page).result.error
          = some (ProbeError.unknownAction ""))
    ∧ (test_single_selector info page).ops.head? = some DomOp.createLocator := by
  rw [test_single_selector_resolve info page (guard_neg_of_allowed _ (Or.inl h))]
  rcases create_locator_cases info.selector with hcr | hcr | hcr
  · rw [resolveStage_err info page _ _ hcr]
    by_cases hc : strContains info.selector ":contains(" = true
    · rw [if_pos hc]
      exact ⟨rfl, Or.inr (Or.inl rfl), rfl⟩
    · rw [if_neg hc]
      exact ⟨rfl, Or.inl rfl, rfl⟩
  · rw [resolveStage_err info page _ _ hcr]
    by_cases hc : strContains info.selector ":contains(" = true
    · rw [if_pos hc]
      exact ⟨rfl, Or.inr (Or.inl rfl), rfl⟩
    · rw [if_neg hc]
      exact ⟨rfl, Or.inr (Or.inl rfl), rfl⟩
  · rw [resolveStage_ok info page _ hcr]
    by_cases hcount : page.element_count = 0
    · rw [foundStage_notFound info page _ hcount]
      exact ⟨rfl, Or.inr (Or.inr (Or.inl rfl)), rfl⟩
    · rw [foundStage_found info page _ hcount]
      cases hv : page.elem.is_visible with
      | false =>
        rw [visibleStage_notVisible info page _ hv]
        exact ⟨rfl, Or.inr (Or.inr (Or.inr (Or.inl rfl))), rfl⟩
      | true =>
        rw [visibleStage_visible info page _ hv, h, actionStage_empty]
        exact ⟨rfl, Or.inr (Or.inr (Or.inr (Or.inr rfl))), rfl⟩

/-- Concrete check of `absent_action_never_succeeds`: a whitespace-only
action on a found, visible element still yields a failed item. -/
theorem absent_action_never_succeeds_witness :
    (test_single_selector { specClick with element_action := "  " } envOk).result.success
      = false :=
  (absent_action_never_succeeds { specClick with element_action := "  " } envOk rfl).1

end SelectorFeasibility
